import Mathlib

/-!
Shallow embedding of the client-side workflow controller in
`src/static/js/app.js` (class `ArticleRewriter`): the loading-overlay and
notification scaffolding, the tab switcher, the blog-refresh and
article-fetch workflows, and the article-table renderer.

The DOM is modelled just as far as the code observes it: the document body
is a list of appended elements (overlays and notifications), tab content
panels and tab links are lists of records carrying the class flags the code
toggles, and the network is a parameter describing the outcome of the one
`fetch` a workflow performs.  Each workflow returns the updated controller
state together with the trace of its observable calls (showLoading,
hideLoading, notifications, network requests).
-/

/-- JavaScript `x || dflt` for a string-or-undefined `x`: `none` models an
absent value (`undefined`), and the empty string is falsy, so both fall
back to `dflt`. -/
def jsOr (v : Option String) (dflt : String) : String :=
  match v with
  | none => dflt
  | some s => if s = "" then dflt else s

/-- An element appended to `document.body` by the controller: the loading
overlay div (`id = "loadingOverlay"`, from `showLoading`) or a transient
notification div (from `showNotification`). -/
inductive BodyElem where
  | overlay (message : String)
  | noteElem (message : String) (etype : String)
deriving DecidableEq

/-- `showLoading(message)` (app.js 89-100): creates a div with id
`loadingOverlay` and appends it to `document.body`.  Nothing is removed
first. -/
def showLoading (message : String) (body : List BodyElem) : List BodyElem :=
  body ++ [BodyElem.overlay message]

/-- `hideLoading()` (app.js 102-107): `getElementById("loadingOverlay")`
returns the first element in document order with that id; if present it is
removed, otherwise nothing happens. -/
def hideLoading : List BodyElem → List BodyElem
  | [] => []
  | BodyElem.overlay _ :: rest => rest
  | e :: rest => e :: hideLoading rest

/-- Whether a body element is the loading overlay. -/
def isOverlay : BodyElem → Bool
  | BodyElem.overlay _ => true
  | _ => false

/-- Number of loading-overlay elements currently in the document body. -/
def overlayCount (body : List BodyElem) : Nat :=
  (body.filter isOverlay).length

/-- One call in a sequence of `showLoading` / `hideLoading` invocations. -/
inductive LoadCall where
  | showCall (message : String)
  | hideCall
deriving DecidableEq

/-- Run a sequence of `showLoading` / `hideLoading` calls against a body. -/
def runLoadCalls (body : List BodyElem) : List LoadCall → List BodyElem
  | [] => body
  | LoadCall.showCall m :: cs => runLoadCalls (showLoading m body) cs
  | LoadCall.hideCall :: cs => runLoadCalls (hideLoading body) cs

/-- A content panel: an element with class `tab-content`; `hidden` records
whether the `hidden` class is present. -/
structure Panel where
  id : String
  hidden : Bool
deriving DecidableEq

/-- A tab control: an element with class `tab-link` whose href targets
`target`; `blue` records the active classes (`bg-blue-50 text-blue-600`),
`gray` the inactive classes (`text-gray-600 hover:bg-gray-50`), each pair
always added/removed together by the code. -/
structure TabLink where
  target : String
  blue : Bool
  gray : Bool
deriving DecidableEq

/-- The parts of the document the tab switcher touches. -/
structure TabDom where
  panels : List Panel
  links : List TabLink
deriving DecidableEq

/-- `content.classList.add("hidden")` on a panel. -/
def hidePanel (p : Panel) : Panel := { p with hidden := true }

/-- `tab.classList.remove("bg-blue-50","text-blue-600")` followed by
`tab.classList.add("text-gray-600","hover:bg-gray-50")` on a tab link. -/
def deactivateLink (l : TabLink) : TabLink := { l with blue := false, gray := true }

/-- `document.getElementById(tabId)` followed by
`classList.remove("hidden")`: the first panel whose id matches is unhidden;
if none matches, nothing changes. -/
def unhideFirst (t : String) : List Panel → List Panel
  | [] => []
  | p :: rest =>
    if p.id = t then { p with hidden := false } :: rest
    else p :: unhideFirst t rest

/-- `document.querySelector("[href=#tabId]")` followed by adding the active
classes and removing the inactive ones: the first link whose target matches
is activated; if none matches, nothing changes. -/
def activateFirst (t : String) : List TabLink → List TabLink
  | [] => []
  | l :: rest =>
    if l.target = t then { l with blue := true, gray := false } :: rest
    else l :: activateFirst t rest

/-- `switchTab(tabId)` (app.js 52-75): hide every `.tab-content` panel,
unhide the panel whose id is `tabId` (if any), set every `.tab-link` to the
inactive styling, then give the link targeting `tabId` (if any) the active
styling. -/
def switchTab (dom : TabDom) (t : String) : TabDom :=
  { panels := unhideFirst t (dom.panels.map hidePanel)
    links := activateFirst t (dom.links.map deactivateLink) }

/-- An article as delivered in the fetch response (app.js data model):
`schedule` is an optional string (`none` models an absent property). -/
structure Article where
  id : String
  title : String
  content : String
  schedule : Option String
deriving DecidableEq

/-- A blog entry from the blogs response. -/
structure Blog where
  id : String
  name : String
deriving DecidableEq

/-- Parsed JSON body of a `/api/fetch-articles` response: either field may
be absent. -/
structure ArticlesData where
  articles : Option (List Article)
  error : Option String
deriving DecidableEq

/-- Parsed JSON body of a `/api/blogs` response: either field may be
absent. -/
structure BlogsData where
  blogs : Option (List Blog)
  error : Option String
deriving DecidableEq

/-- Outcome of the single `fetch` a workflow performs: the promise rejects
(`netError`, carrying the rejection message), `response.json()` rejects
(`badJson`, carrying that rejection's message), or a body parses
(`json ok data`, with `ok` the value of `response.ok`). -/
inductive Net (α : Type) where
  | netError (message : String)
  | badJson (message : String)
  | json (ok : Bool) (data : α)
deriving DecidableEq

/-- One rendered row of `#articlesTable tbody`: the three cell texts and
the row's `dataset.id`. -/
structure Row where
  rowId : String
  title : String
  scheduleCell : String
  statusCell : String
deriving DecidableEq

/-- The `<tr>` built for one article (app.js 213-226): title cell, schedule
cell showing `article.schedule || "Not scheduled"`, and a fixed "Pending"
status badge. -/
def renderRow (a : Article) : Row :=
  { rowId := a.id
    title := a.title
    scheduleCell := jsOr a.schedule "Not scheduled"
    statusCell := "Pending" }

/-- The controller state plus the parts of the view it writes.  `hasTbody`
and `hasBlogSelect` record whether the table body / blog select elements
exist in the document (the code guards both lookups). -/
structure AppState where
  apiKey : String
  articles : List Article
  blogOptions : List (String × String)
  tableRows : List Row
  hasTbody : Bool
  hasBlogSelect : Bool
deriving DecidableEq

/-- `updateArticlesTable()` (app.js 208-234): if the tbody is missing,
return; otherwise clear it (`innerHTML = ""`) and append one rendered row
per article, in collection order. -/
def updateArticlesTable (st : AppState) : AppState :=
  if st.hasTbody then
    { st with tableRows := st.articles.foldl (fun acc a => acc ++ [renderRow a]) [] }
  else st

/-- An observable call made during a workflow run, in order. -/
inductive Event where
  | showLoad (message : String)
  | hideLoad
  | notify (message : String) (etype : String)
  | networkRequest (endpoint : String)
deriving DecidableEq

/-- Messages of the error-severity notifications in a trace, in order. -/
def errNotifs (tr : List Event) : List String :=
  tr.filterMap fun e =>
    match e with
    | Event.notify m t => if t = "error" then some m else none
    | _ => none

/-- Endpoints of the network requests issued in a trace, in order. -/
def netRequests (tr : List Event) : List String :=
  tr.filterMap fun e =>
    match e with
    | Event.networkRequest ep => some ep
    | _ => none

/-- Number of `hideLoading` calls in a trace. -/
def hideCalls (tr : List Event) : Nat :=
  (tr.filter fun e =>
    match e with
    | Event.hideLoad => true
    | _ => false).length

/-- Replay a trace's DOM side effects against a document body. -/
def applyEvent (body : List BodyElem) (e : Event) : List BodyElem :=
  match e with
  | Event.showLoad m => showLoading m body
  | Event.hideLoad => hideLoading body
  | Event.notify m t => body ++ [BodyElem.noteElem m t]
  | Event.networkRequest _ => body

/-- Replay a whole trace against a document body. -/
def runEvents (body : List BodyElem) (tr : List Event) : List BodyElem :=
  tr.foldl applyEvent body

/-- `refreshBlogs()` (app.js 109-148).  The precondition `!this.apiKey`
rejects an empty key before any loading overlay or network call; the
response is considered a success exactly when the parsed body has a
`blogs` field (its `ok` status is never consulted); on success the blog
select's options are rebuilt wholesale (when the element exists); every
thrown error lands in the catch clause as one error notification, and the
finally clause always calls `hideLoading` once. -/
def refreshBlogs (net : Net BlogsData) (st : AppState) : AppState × List Event :=
  if st.apiKey = "" then
    (st, [Event.notify "Please set your API key first" "error", Event.hideLoad])
  else
    let pre := [Event.showLoad "Refreshing blogs...", Event.networkRequest "/api/blogs"]
    match net with
    | Net.netError m =>
      (st, pre ++ [Event.notify m "error", Event.hideLoad])
    | Net.badJson m =>
      (st, pre ++ [Event.notify m "error", Event.hideLoad])
    | Net.json _ data =>
      match data.blogs with
      | some bs =>
        let st1 :=
          if st.hasBlogSelect then
            { st with blogOptions := bs.map fun b => (b.id, b.name) }
          else st
        (st1, pre ++ [Event.notify "Blogs refreshed successfully" "success", Event.hideLoad])
      | none =>
        (st, pre ++ [Event.notify (jsOr data.error "Failed to fetch blogs") "error", Event.hideLoad])

/-- The catch clause of `fetchArticles` (app.js 197-202) followed by its
finally clause: one error notification, `articles` cleared, table
re-rendered, `hideLoading`. -/
def fetchArticlesFail (st : AppState) (pre : List Event) (msg : String) :
    AppState × List Event :=
  (updateArticlesTable { st with articles := [] },
   pre ++ [Event.notify msg "error", Event.hideLoad])

/-- `fetchArticles()` (app.js 150-206).  `input` models
`getElementById("sitemapUrl")?.value` (`none` when the element is
missing); the `||` fallback supplies the fixed default URL.  `urlOk`
models whether `new URL(s)` succeeds in the browser.  Validation failures
throw before `showLoading` and before any network call; after the fetch,
an unparseable body, a non-ok status, and a missing or empty `articles`
list all throw; every thrown error lands in the catch clause, which
notifies once, clears `articles` and re-renders; the finally clause always
calls `hideLoading` once. -/
def fetchArticles (urlOk : String → Bool) (input : Option String)
    (net : Net ArticlesData) (st : AppState) : AppState × List Event :=
  let url := jsOr input "https://blog.google/sitemap.xml"
  if url = "" then
    fetchArticlesFail st [] "Please enter a sitemap URL"
  else if urlOk url = false then
    fetchArticlesFail st [] "Please enter a valid URL"
  else
    let pre := [Event.showLoad "Fetching articles...",
                Event.networkRequest "/api/fetch-articles"]
    match net with
    | Net.netError m => fetchArticlesFail st pre m
    | Net.badJson _ => fetchArticlesFail st pre "Invalid response from server"
    | Net.json ok data =>
      if ok = false then
        fetchArticlesFail st pre (jsOr data.error "Failed to fetch articles")
      else
        match data.articles with
        | some arts =>
          if 0 < arts.length then
            let st1 := updateArticlesTable { st with articles := arts }
            let n := arts.length
            (st1, pre ++ [Event.notify s!"Successfully fetched {n} articles" "success",
                          Event.hideLoad])
          else fetchArticlesFail st pre "No articles found in the sitemap"
        | none => fetchArticlesFail st pre "No articles found in the sitemap"

/-- The `saveApiKey` click handler (app.js 17-20): store the input field's
current value in `apiKey` and show a success notification,
unconditionally. -/
def saveApiKeyClick (inputValue : String) (st : AppState) : AppState × List Event :=
  ({ st with apiKey := inputValue },
   [Event.notify "API key saved successfully" "success"])

/-- Substring test used to state "the message mentions the API key". -/
def containsFrom (needle : List Char) : List Char → Bool
  | [] => decide (needle = [])
  | c :: rest => needle.isPrefixOf (c :: rest) || containsFrom needle rest

/-- `strContains hay needle` is true when `needle` occurs inside `hay`. -/
def strContains (hay needle : String) : Bool :=
  containsFrom needle.data hay.data

/-- The claim's failure condition for the article fetch, after validation:
the request fails on the wire, the status is not ok, the body does not
parse, or the parsed body carries no non-empty article list. -/
def fetchFailure (net : Net ArticlesData) : Prop :=
  match net with
  | Net.netError _ => True
  | Net.badJson _ => True
  | Net.json ok data => ok = false ∨ data.articles = none ∨ data.articles = some []

/-- The claim's failure condition for the blog refresh: empty API key,
wire failure, unparseable body, or a body without a `blogs` field (which
covers server-reported errors). -/
def blogsFailure (apiKey : String) (net : Net BlogsData) : Prop :=
  apiKey = "" ∨
    match net with
    | Net.netError _ => True
    | Net.badJson _ => True
    | Net.json _ data => data.blogs = none

/-- A concrete controller state used by the witnesses: a non-empty article
collection, a saved blog option, both view elements present, no API key. -/
def sampleState : AppState :=
  { apiKey := ""
    articles := [{ id := "1", title := "A", content := "x", schedule := some "tomorrow" }]
    blogOptions := [("b1", "Blog One")]
    tableRows := []
    hasTbody := true
    hasBlogSelect := true }

lemma overlayCount_showLoading (m : String) (b : List BodyElem) :
    overlayCount (showLoading m b) = overlayCount b + 1 := by
  simp [overlayCount, showLoading, List.filter_append, isOverlay]

lemma overlayCount_hideLoading (b : List BodyElem) :
    overlayCount (hideLoading b) = overlayCount b - 1 := by
  induction b with
  | nil => rfl
  | cons e rest ih =>
    cases e with
    | overlay m => simp [hideLoading, overlayCount, List.filter, isOverlay]
    | noteElem m t => simpa [hideLoading, overlayCount, List.filter, isOverlay] using ih

/-- C1 (counterexample): with one overlay already in the document,
`showLoading` leaves two overlays; it does not replace the existing one. -/
theorem showLoading_does_not_replace :
    overlayCount [BodyElem.overlay "a"] = 1 ∧
    overlayCount (showLoading "b" [BodyElem.overlay "a"]) = 2 ∧
    overlayCount (showLoading "b" [BodyElem.overlay "a"]) ≠ 1 := by
  decide

/-- C1 (amended): over every sequence of `showLoading` and `hideLoading`
calls, the number of overlays in the document is the running count of the
calls: each `showLoading` appends one more overlay (so a call made while
an overlay is visible leaves both in the document), and each `hideLoading`
removes one overlay when any exists.  At most one overlay is guaranteed
only when every `showLoading` happens with no overlay present. -/
theorem loading_overlay_count (cs : List LoadCall) (body : List BodyElem) :
    overlayCount (runLoadCalls body cs) =
      cs.foldl
        (fun n c =>
          match c with
          | LoadCall.showCall _ => n + 1
          | LoadCall.hideCall => n - 1)
        (overlayCount body) := by
  induction cs generalizing body with
  | nil => rfl
  | cons c cs ih =>
    cases c with
    | showCall m =>
      simpa [runLoadCalls, overlayCount_showLoading] using
        ih (showLoading m body)
    | hideCall =>
      simpa [runLoadCalls, overlayCount_hideLoading] using
        ih (hideLoading body)

lemma unhideFirst_map_hidePanel (t : String) (ps : List Panel) :
    (unhideFirst t ps).map hidePanel = ps.map hidePanel := by
  induction ps with
  | nil => rfl
  | cons p rest ih =>
    by_cases h : p.id = t
    · simp [unhideFirst, h, hidePanel]
    · simp [unhideFirst, h, ih]

lemma map_hidePanel_hidePanel (ps : List Panel) :
    (ps.map hidePanel).map hidePanel = ps.map hidePanel := by
  rw [List.map_map]
  rfl

lemma activateFirst_map_deactivateLink (t : String) (ls : List TabLink) :
    (activateFirst t ls).map deactivateLink = ls.map deactivateLink := by
  induction ls with
  | nil => rfl
  | cons l rest ih =>
    by_cases h : l.target = t
    · simp [activateFirst, h, deactivateLink]
    · simp [activateFirst, h, ih]

lemma map_deactivateLink_deactivateLink (ls : List TabLink) :
    (ls.map deactivateLink).map deactivateLink = ls.map deactivateLink := by
  rw [List.map_map]
  rfl

/-- C8: tab switching is idempotent — switching to a tab id twice in a row
produces exactly the same panel visibility and tab-control styling as
switching once (proved for every tab id, known or not). -/
theorem switchTab_idempotent (dom : TabDom) (t : String) :
    switchTab (switchTab dom t) t = switchTab dom t := by
  simp only [switchTab]
  congr 1
  · rw [unhideFirst_map_hidePanel, map_hidePanel_hidePanel]
  · rw [activateFirst_map_deactivateLink, map_deactivateLink_deactivateLink]

/-- C7 (counterexample): with a single visible panel `settings`, switching
to the unknown tab id `bogus` hides that panel — the transition is not a
no-op on the content panels and the previously visible panel does not stay
visible. -/
theorem switchTab_unknown_cex :
    (TabDom.mk [Panel.mk "settings" false] [TabLink.mk "settings" true false]).panels.map
        Panel.hidden = [false] ∧
    (switchTab (TabDom.mk [Panel.mk "settings" false] [TabLink.mk "settings" true false])
        "bogus").panels.map Panel.hidden = [true] := by
  decide

lemma unhideFirst_not_found (t : String) (ps : List Panel)
    (h : ∀ p ∈ ps, p.id ≠ t) : unhideFirst t ps = ps := by
  induction ps with
  | nil => rfl
  | cons p rest ih =>
    have hp : p.id ≠ t := h p (List.mem_cons_self p rest)
    simp [unhideFirst, hp]
    exact ih fun q hq => h q (List.mem_cons_of_mem p hq)

/-- C7 (amended): a tab transition whose target id does not correspond to
any content panel is not a no-op — it hides every content panel (the
previously visible panel is hidden too, and no panel is left visible). -/
theorem switchTab_unknown_hides_all (dom : TabDom) (t : String)
    (h : ∀ p ∈ dom.panels, p.id ≠ t) :
    (switchTab dom t).panels = dom.panels.map hidePanel ∧
    ∀ p ∈ (switchTab dom t).panels, p.hidden = true := by
  have hmap : ∀ p ∈ dom.panels.map hidePanel, p.id ≠ t := by
    intro p hp
    obtain ⟨q, hq, rfl⟩ := List.mem_map.1 hp
    exact h q hq
  have heq : (switchTab dom t).panels = dom.panels.map hidePanel := by
    simp only [switchTab]
    exact unhideFirst_not_found t _ hmap
  refine ⟨heq, ?_⟩
  intro p hp
  rw [heq] at hp
  obtain ⟨q, hq, rfl⟩ := List.mem_map.1 hp
  rfl

/-- C7 (witness for the amended theorem): the concrete single-panel layout
above, with the unknown tab id `bogus`. -/
theorem switchTab_unknown_hides_all_witness :
    (switchTab (TabDom.mk [Panel.mk "settings" false] [TabLink.mk "settings" true false])
        "bogus").panels =
      [Panel.mk "settings" false].map hidePanel ∧
    ∀ p ∈ (switchTab (TabDom.mk [Panel.mk "settings" false]
        [TabLink.mk "settings" true false]) "bogus").panels, p.hidden = true :=
  switchTab_unknown_hides_all
    (TabDom.mk [Panel.mk "settings" false] [TabLink.mk "settings" true false]) "bogus"
    (by decide)

lemma jsOr_ne_empty (v : Option String) (dflt : String) (h : dflt ≠ "") :
    jsOr v dflt ≠ "" := by
  cases v with
  | none => exact h
  | some s =>
    simp only [jsOr]
    split
    · exact h
    · assumption

lemma updateArticlesTable_articles (st : AppState) :
    (updateArticlesTable st).articles = st.articles := by
  unfold updateArticlesTable
  split <;> rfl

lemma foldl_push_renderRow (l : List Article) (acc : List Row) :
    l.foldl (fun acc a => acc ++ [renderRow a]) acc = acc ++ l.map renderRow := by
  induction l generalizing acc with
  | nil => simp
  | cons a rest ih => simp [List.foldl, ih]

lemma updateArticlesTable_rows (st : AppState) (ht : st.hasTbody = true) :
    (updateArticlesTable st).tableRows = st.articles.map renderRow := by
  simp [updateArticlesTable, ht, foldl_push_renderRow]

lemma sitemap_default_ne_empty (input : Option String) :
    jsOr input "https://blog.google/sitemap.xml" ≠ "" :=
  jsOr_ne_empty input _ (by decide)

/-- C2 (counterexample): with a non-empty prior collection, fetching with
the unparseable sitemap URL `"not a url"` issues no network request and
notifies once about the invalid URL, but it does not leave `articles`
unchanged — the catch clause clears the collection. -/
theorem fetchArticles_invalid_url_cex :
    netRequests (fetchArticles (fun _ => false) (some "not a url")
      (Net.netError "boom") sampleState).2 = [] ∧
    errNotifs (fetchArticles (fun _ => false) (some "not a url")
      (Net.netError "boom") sampleState).2 = ["Please enter a valid URL"] ∧
    (fetchArticles (fun _ => false) (some "not a url")
      (Net.netError "boom") sampleState).1.articles ≠ sampleState.articles := by
  decide

/-- C2 (amended): for every prior article collection, running the
article-fetch workflow with a sitemap URL that does not parse as a
well-formed absolute URL fails locally before any network call and
produces exactly one error notification about the invalid URL, but it
resets the `articles` collection to empty (the shared catch clause clears
it) rather than leaving it unchanged. -/
theorem fetchArticles_invalid_url (urlOk : String → Bool) (input : Option String)
    (net : Net ArticlesData) (st : AppState)
    (hv : urlOk (jsOr input "https://blog.google/sitemap.xml") = false) :
    netRequests (fetchArticles urlOk input net st).2 = [] ∧
    errNotifs (fetchArticles urlOk input net st).2 = ["Please enter a valid URL"] ∧
    (fetchArticles urlOk input net st).1.articles = [] := by
  have hurl := sitemap_default_ne_empty input
  refine ⟨?_, ?_, ?_⟩ <;>
    simp [fetchArticles, fetchArticlesFail, hurl, hv, errNotifs, netRequests,
      updateArticlesTable_articles]

/-- C2 (witness): the amended theorem at the concrete inputs of the
counterexample. -/
theorem fetchArticles_invalid_url_witness :
    netRequests (fetchArticles (fun _ => false) (some "not a url")
      (Net.netError "boom") sampleState).2 = [] ∧
    errNotifs (fetchArticles (fun _ => false) (some "not a url")
      (Net.netError "boom") sampleState).2 = ["Please enter a valid URL"] ∧
    (fetchArticles (fun _ => false) (some "not a url")
      (Net.netError "boom") sampleState).1.articles = [] :=
  fetchArticles_invalid_url (fun _ => false) (some "not a url")
    (Net.netError "boom") sampleState rfl

/-- C3: for every prior article collection, any fetch failure after URL
validation — network error, unparseable body, non-ok status, or an ok
response without a non-empty article list (which is how a server-reported
error surfaces) — produces exactly one error notification, resets
`articles` to empty and re-renders the table with zero rows. -/
theorem fetchArticles_failure_resets (urlOk : String → Bool) (input : Option String)
    (net : Net ArticlesData) (st : AppState)
    (hv : urlOk (jsOr input "https://blog.google/sitemap.xml") = true)
    (hf : fetchFailure net) (ht : st.hasTbody = true) :
    (fetchArticles urlOk input net st).1.articles = [] ∧
    (fetchArticles urlOk input net st).1.tableRows = [] ∧
    (errNotifs (fetchArticles urlOk input net st).2).length = 1 := by
  have hurl := sitemap_default_ne_empty input
  cases net with
  | netError m =>
    simp [fetchArticles, hurl, hv, fetchArticlesFail, errNotifs,
      updateArticlesTable_articles, updateArticlesTable_rows, ht]
  | badJson m =>
    simp [fetchArticles, hurl, hv, fetchArticlesFail, errNotifs,
      updateArticlesTable_articles, updateArticlesTable_rows, ht]
  | json ok data =>
    cases ok with
    | false =>
      simp [fetchArticles, hurl, hv, fetchArticlesFail, errNotifs,
        updateArticlesTable_articles, updateArticlesTable_rows, ht]
    | true =>
      have harts : data.articles = none ∨ data.articles = some [] := by
        simp only [fetchFailure] at hf
        rcases hf with h | h | h
        · exact absurd h (by simp)
        · exact Or.inl h
        · exact Or.inr h
      rcases harts with h | h <;>
        simp [fetchArticles, hurl, hv, h, fetchArticlesFail, errNotifs,
          updateArticlesTable_articles, updateArticlesTable_rows, ht]

/-- C3 (witness): a network error with a non-empty prior collection. -/
theorem fetchArticles_failure_resets_witness :
    (fetchArticles (fun _ => true) none (Net.netError "boom") sampleState).1.articles = [] ∧
    (fetchArticles (fun _ => true) none (Net.netError "boom") sampleState).1.tableRows = [] ∧
    (errNotifs (fetchArticles (fun _ => true) none
      (Net.netError "boom") sampleState).2).length = 1 :=
  fetchArticles_failure_resets (fun _ => true) none (Net.netError "boom") sampleState
    rfl trivial rfl

/-- C4: for every prior article collection, a successful fetch (ok status,
parsed body) whose article list is non-empty replaces the entire in-memory
collection with the returned list, preserving its order, and re-renders
the table as exactly that list's rows. -/
theorem fetchArticles_success_replaces (urlOk : String → Bool) (input : Option String)
    (data : ArticlesData) (arts : List Article) (st : AppState)
    (hv : urlOk (jsOr input "https://blog.google/sitemap.xml") = true)
    (ha : data.articles = some arts) (hne : arts ≠ []) (ht : st.hasTbody = true) :
    (fetchArticles urlOk input (Net.json true data) st).1.articles = arts ∧
    (fetchArticles urlOk input (Net.json true data) st).1.tableRows =
      arts.map renderRow := by
  have hurl := sitemap_default_ne_empty input
  have hlen : 0 < arts.length := List.length_pos.2 hne
  refine ⟨?_, ?_⟩ <;>
    simp [fetchArticles, hurl, hv, ha, hlen,
      updateArticlesTable_articles, updateArticlesTable_rows, ht]

/-- C4 (witness): a one-article response replacing the sample state's
collection. -/
theorem fetchArticles_success_replaces_witness :
    (fetchArticles (fun _ => true) none
      (Net.json true (ArticlesData.mk (some [Article.mk "2" "B" "y" none]) none))
      sampleState).1.articles = [Article.mk "2" "B" "y" none] ∧
    (fetchArticles (fun _ => true) none
      (Net.json true (ArticlesData.mk (some [Article.mk "2" "B" "y" none]) none))
      sampleState).1.tableRows = [Article.mk "2" "B" "y" none].map renderRow :=
  fetchArticles_success_replaces (fun _ => true) none
    (ArticlesData.mk (some [Article.mk "2" "B" "y" none]) none)
    [Article.mk "2" "B" "y" none] sampleState rfl rfl (by decide) rfl

/-- C5: with an empty `apiKey` the blog-refresh workflow performs no
network call and produces exactly one error notification whose message
mentions the API key; and on every failure of the workflow (empty key,
wire failure, unparseable body, or a body without a `blogs` field, which
is how server-reported errors arrive) the blog-selection option list is
left unchanged. -/
theorem refreshBlogs_failure (net : Net BlogsData) (st : AppState) :
    (st.apiKey = "" →
      netRequests (refreshBlogs net st).2 = [] ∧
      errNotifs (refreshBlogs net st).2 = ["Please set your API key first"] ∧
      strContains "Please set your API key first" "API key" = true) ∧
    (blogsFailure st.apiKey net → (refreshBlogs net st).1.blogOptions = st.blogOptions) := by
  constructor
  · intro hk
    refine ⟨?_, ?_, ?_⟩
    · simp [refreshBlogs, hk, netRequests]
    · simp [refreshBlogs, hk, errNotifs]
    · decide
  · intro hf
    by_cases hk : st.apiKey = ""
    · simp [refreshBlogs, hk]
    · rcases hf with h | h
      · exact absurd h hk
      · cases net with
        | netError m => simp [refreshBlogs, hk]
        | badJson m => simp [refreshBlogs, hk]
        | json ok data =>
          have hb : data.blogs = none := h
          simp [refreshBlogs, hk, hb]

/-- C5 (witness): the sample state (empty API key) against a
server-reported error body without a `blogs` field. -/
theorem refreshBlogs_failure_witness :
    (netRequests (refreshBlogs (Net.json true (BlogsData.mk none (some "boom")))
        sampleState).2 = [] ∧
      errNotifs (refreshBlogs (Net.json true (BlogsData.mk none (some "boom")))
        sampleState).2 = ["Please set your API key first"] ∧
      strContains "Please set your API key first" "API key" = true) ∧
    (refreshBlogs (Net.json true (BlogsData.mk none (some "boom")))
        sampleState).1.blogOptions = sampleState.blogOptions :=
  ⟨(refreshBlogs_failure (Net.json true (BlogsData.mk none (some "boom"))) sampleState).1
      rfl,
   (refreshBlogs_failure (Net.json true (BlogsData.mk none (some "boom"))) sampleState).2
      (Or.inl rfl)⟩

/-- C6: in every execution of the article-fetch or blog-refresh workflow —
whatever the validation outcome and whatever the network does —
`hideLoading` is called exactly once (the finally clause), and replaying
the workflow's calls against a document with no overlay leaves no overlay
behind. -/
theorem workflows_hide_loading_once (urlOk : String → Bool) (input : Option String)
    (netA : Net ArticlesData) (netB : Net BlogsData) (st : AppState) :
    hideCalls (fetchArticles urlOk input netA st).2 = 1 ∧
    overlayCount (runEvents [] (fetchArticles urlOk input netA st).2) = 0 ∧
    hideCalls (refreshBlogs netB st).2 = 1 ∧
    overlayCount (runEvents [] (refreshBlogs netB st).2) = 0 := by
  have hurl := sitemap_default_ne_empty input
  have hfetch : hideCalls (fetchArticles urlOk input netA st).2 = 1 ∧
      overlayCount (runEvents [] (fetchArticles urlOk input netA st).2) = 0 := by
    by_cases hok : urlOk (jsOr input "https://blog.google/sitemap.xml") = false
    · simp [fetchArticles, hurl, hok, fetchArticlesFail, hideCalls, runEvents,
        applyEvent, overlayCount, showLoading, hideLoading, isOverlay]
    · have hok' : urlOk (jsOr input "https://blog.google/sitemap.xml") = true := by
        simpa using hok
      cases netA with
      | netError m =>
        simp [fetchArticles, hurl, hok', fetchArticlesFail, hideCalls, runEvents,
          applyEvent, overlayCount, showLoading, hideLoading, isOverlay]
      | badJson m =>
        simp [fetchArticles, hurl, hok', fetchArticlesFail, hideCalls, runEvents,
          applyEvent, overlayCount, showLoading, hideLoading, isOverlay]
      | json ok data =>
        cases ok with
        | false =>
          simp [fetchArticles, hurl, hok', fetchArticlesFail, hideCalls, runEvents,
            applyEvent, overlayCount, showLoading, hideLoading, isOverlay]
        | true =>
          rcases harts : data.articles with _ | arts
          · simp [fetchArticles, hurl, hok', harts, fetchArticlesFail, hideCalls,
              runEvents, applyEvent, overlayCount, showLoading, hideLoading, isOverlay]
          · by_cases hl : 0 < arts.length <;>
              simp [fetchArticles, hurl, hok', harts, hl, fetchArticlesFail, hideCalls,
                runEvents, applyEvent, overlayCount, showLoading, hideLoading, isOverlay]
  have hblogs : hideCalls (refreshBlogs netB st).2 = 1 ∧
      overlayCount (runEvents [] (refreshBlogs netB st).2) = 0 := by
    by_cases hk : st.apiKey = ""
    · simp [refreshBlogs, hk, hideCalls, runEvents, applyEvent, overlayCount,
        showLoading, hideLoading, isOverlay]
    · cases netB with
      | netError m =>
        simp [refreshBlogs, hk, hideCalls, runEvents, applyEvent, overlayCount,
          showLoading, hideLoading, isOverlay]
      | badJson m =>
        simp [refreshBlogs, hk, hideCalls, runEvents, applyEvent, overlayCount,
          showLoading, hideLoading, isOverlay]
      | json ok data =>
        rcases hb : data.blogs with _ | bs <;>
          simp [refreshBlogs, hk, hb, hideCalls, runEvents, applyEvent, overlayCount,
            showLoading, hideLoading, isOverlay]
  exact ⟨hfetch.1, hfetch.2, hblogs.1, hblogs.2⟩

/-- The schedule cell as the claim words it: the article's schedule when
one is present, the fixed placeholder exactly when it is absent. -/
def claimScheduleCell (a : Article) : String :=
  match a.schedule with
  | some s => s
  | none => "Not scheduled"

/-- C9 (counterexample): an article whose schedule is present but is the
empty string — the claim's projection shows that schedule (the empty
string), while the rendered cell shows the placeholder, because the code's
`||` fallback also fires on the empty string. -/
theorem renderRow_empty_schedule_cex :
    (renderRow (Article.mk "1" "A" "x" (some ""))).scheduleCell = "Not scheduled" ∧
    claimScheduleCell (Article.mk "1" "A" "x" (some "")) = "" ∧
    (renderRow (Article.mk "1" "A" "x" (some ""))).scheduleCell ≠
      claimScheduleCell (Article.mk "1" "A" "x" (some "")) := by
  decide

/-- C9 (amended): re-rendering the table discards all prior rows and
produces exactly one row per article in collection order, each showing the
article's title, its schedule — with the fixed "Not scheduled" placeholder
when the schedule is absent or empty — and the fixed "Pending" status
label. -/
theorem updateArticlesTable_renders (st : AppState) (ht : st.hasTbody = true) :
    (updateArticlesTable st).tableRows = st.articles.map renderRow ∧
    (updateArticlesTable st).tableRows.length = st.articles.length ∧
    ∀ a ∈ st.articles, (renderRow a).title = a.title ∧
      (renderRow a).statusCell = "Pending" ∧
      (renderRow a).scheduleCell = jsOr a.schedule "Not scheduled" := by
  have hrows := updateArticlesTable_rows st ht
  refine ⟨hrows, ?_, ?_⟩
  · rw [hrows, List.length_map]
  · intro a _
    exact ⟨rfl, rfl, rfl⟩

/-- C9 (witness for the amended theorem): the sample state, whose single
article has a present, non-empty schedule. -/
theorem updateArticlesTable_renders_witness :
    (updateArticlesTable sampleState).tableRows = sampleState.articles.map renderRow ∧
    (updateArticlesTable sampleState).tableRows.length = sampleState.articles.length ∧
    ∀ a ∈ sampleState.articles, (renderRow a).title = a.title ∧
      (renderRow a).statusCell = "Pending" ∧
      (renderRow a).scheduleCell = jsOr a.schedule "Not scheduled" :=
  updateArticlesTable_renders sampleState rfl

/-- C10: clicking the save-API-key control stores the input field's value
— whatever it is, the empty string included — and unconditionally shows
one success notification; when the saved value is empty, `apiKey` stays
empty, so a subsequent blog refresh issues no network request and fails
with the API-key precondition error. -/
theorem saveApiKey_unconditional_success (v : String) (st : AppState)
    (net : Net BlogsData) :
    (saveApiKeyClick v st).1.apiKey = v ∧
    (saveApiKeyClick v st).2 = [Event.notify "API key saved successfully" "success"] ∧
    (v = "" →
      netRequests (refreshBlogs net (saveApiKeyClick v st).1).2 = [] ∧
      errNotifs (refreshBlogs net (saveApiKeyClick v st).1).2 =
        ["Please set your API key first"]) := by
  refine ⟨rfl, rfl, ?_⟩
  intro hv
  subst hv
  constructor
  · simp [saveApiKeyClick, refreshBlogs, netRequests]
  · simp [saveApiKeyClick, refreshBlogs, errNotifs]

/-- C10 (witness): saving the empty string over a previously set key, then
refreshing blogs against a healthy network. -/
theorem saveApiKey_unconditional_success_witness :
    (saveApiKeyClick "" sampleState).1.apiKey = "" ∧
    (saveApiKeyClick "" sampleState).2 =
      [Event.notify "API key saved successfully" "success"] ∧
    netRequests (refreshBlogs (Net.json true (BlogsData.mk (some []) none))
      (saveApiKeyClick "" sampleState).1).2 = [] ∧
    errNotifs (refreshBlogs (Net.json true (BlogsData.mk (some []) none))
      (saveApiKeyClick "" sampleState).1).2 = ["Please set your API key first"] := by
  obtain ⟨h1, h2, h3⟩ := saveApiKey_unconditional_success "" sampleState
    (Net.json true (BlogsData.mk (some []) none))
  exact ⟨h1, h2, (h3 rfl).1, (h3 rfl).2⟩
